import Mathlib

/-!
Shallow embedding of the go-metrics repository: the dynamic metric registry
(metrics.go), the Grafana push pipeline (push.go), the configuration and the
two Gin middlewares.  Go float64 values are modelled as exact rationals and
Go panics are modelled by the GoOutcome type, which records the panic message
together with the (shared, already mutated) state visible at the panic.
-/

/-- Outcome of a Go call that may panic: either a normal return carrying the
updated state, or a panic carrying the message and the state at the panic. -/
inductive GoOutcome (α : Type) where
  | ok : α → GoOutcome α
  | panicked : String → α → GoOutcome α
deriving DecidableEq

/-- True when the call panicked (crashed the caller). -/
def GoOutcome.crashed {α : Type} : GoOutcome α → Bool
  | .ok _ => false
  | .panicked _ _ => true

/-- The state after the call: the returned state on a normal exit, the state
visible at the panic otherwise (Go objects are shared by pointer, so
mutations made before the panic persist). -/
def GoOutcome.state {α : Type} : GoOutcome α → α
  | .ok a => a
  | .panicked _ a => a

/-- Lookup in an association list (models a Go map read). -/
def alookup {κ α : Type} [DecidableEq κ] : List (κ × α) → κ → Option α
  | [], _ => none
  | (k', v') :: rest, k => if k' = k then some v' else alookup rest k

/-- Replace the first binding of a key (Go map update of a present key). -/
def updateFirst {κ α : Type} [DecidableEq κ] : List (κ × α) → κ → α → List (κ × α)
  | [], _, _ => []
  | (k', v') :: rest, k, v =>
    if k' = k then (k, v) :: rest else (k', v') :: updateFirst rest k v

/-- Insert-or-update (Go map assignment). -/
def upsert {κ α : Type} [DecidableEq κ] (l : List (κ × α)) (k : κ) (v : α) :
    List (κ × α) :=
  if (alookup l k).isSome then updateFirst l k v else l ++ [(k, v)]

/-- MetricLabels is a map of label key-value pairs (Go: map[string]string). -/
abbrev MetricLabels := List (String × String)

/-- getLabelKeys extracts label keys from a label map (metrics.go); a nil map
yields the empty key list. -/
def getLabelKeys (labels : MetricLabels) : List String := labels.map Prod.fst

/-- Resolve the label values for the schema keys, in schema order; none when
some schema key is missing from the supplied map (prometheus client label
lookup performed by With). -/
def resolveVals : List String → MetricLabels → Option (List String)
  | [], _ => some []
  | k :: ks, labels =>
    match alookup labels k, resolveVals ks labels with
    | some v, some vs => some (v :: vs)
    | _, _ => none

/-- Prometheus With label resolution: the supplied map must have exactly as
many entries as the vector's variable labels and every variable label must be
present; otherwise the client reports an inconsistent-cardinality error,
which With turns into a panic. -/
def resolveLabelValues (labelKeys : List String) (labels : MetricLabels) :
    Option (List String) :=
  if labels.length = labelKeys.length then resolveVals labelKeys labels else none

/-- Two label-key lists describe the same key set (membership, not order). -/
def sameKeySet (a b : List String) : Prop :=
  (∀ k ∈ a, k ∈ b) ∧ (∀ k ∈ b, k ∈ a)

instance (a b : List String) : Decidable (sameKeySet a b) := by
  unfold sameKeySet; infer_instance

/-- Fully qualified metric name (prometheus BuildFQName
namespace_subsystem_name, skipping empty components). -/
def buildFQName (ns sub name : String) : String :=
  (if ns = "" then "" else ns ++ "_") ++ (if sub = "" then "" else sub ++ "_") ++ name

/-- A prometheus CounterVec: the variable-label schema fixed at creation and
one float64 accumulator per observed label-value combination. -/
structure CounterVec where
  fqName : String
  labelKeys : List String
  series : List (List String × ℚ)
deriving DecidableEq

/-- CounterVec.With followed by Add: panics on a label-schema mismatch
(inconsistent cardinality); With creates the child series at 0 when absent,
and then Counter.Add panics when the value is negative (counters cannot
decrease), leaving the freshly created child in place. -/
def CounterVec.withAdd (c : CounterVec) (labels : MetricLabels) (v : ℚ) :
    GoOutcome CounterVec :=
  match resolveLabelValues c.labelKeys labels with
  | none => .panicked "inconsistent label cardinality" c
  | some vals =>
    let cur : ℚ := (alookup c.series vals).getD 0
    let withChild : CounterVec := { c with series := upsert c.series vals cur }
    if v < 0 then .panicked "counter cannot decrease in value" withChild
    else .ok { withChild with series := upsert withChild.series vals (cur + v) }

/-- A prometheus GaugeVec. -/
structure GaugeVec where
  fqName : String
  labelKeys : List String
  series : List (List String × ℚ)
deriving DecidableEq

/-- GaugeVec.With followed by Set: panics on schema mismatch, otherwise sets
the series to the given absolute value. -/
def GaugeVec.withSet (g : GaugeVec) (labels : MetricLabels) (v : ℚ) :
    GoOutcome GaugeVec :=
  match resolveLabelValues g.labelKeys labels with
  | none => .panicked "inconsistent label cardinality" g
  | some vals => .ok { g with series := upsert g.series vals v }

/-- GaugeVec.With followed by Inc. -/
def GaugeVec.withInc (g : GaugeVec) (labels : MetricLabels) : GoOutcome GaugeVec :=
  match resolveLabelValues g.labelKeys labels with
  | none => .panicked "inconsistent label cardinality" g
  | some vals =>
    let cur : ℚ := (alookup g.series vals).getD 0
    .ok { g with series := upsert g.series vals (cur + 1) }

/-- GaugeVec.With followed by Dec. -/
def GaugeVec.withDec (g : GaugeVec) (labels : MetricLabels) : GoOutcome GaugeVec :=
  match resolveLabelValues g.labelKeys labels with
  | none => .panicked "inconsistent label cardinality" g
  | some vals =>
    let cur : ℚ := (alookup g.series vals).getD 0
    .ok { g with series := upsert g.series vals (cur - 1) }

/-- One histogram series: per-bucket counts aligned with the vector's bucket
boundaries, plus the running sample count and sum. -/
structure HistSeries where
  bucketCounts : List Nat
  sampleCount : Nat
  sampleSum : ℚ
deriving DecidableEq

/-- A fresh histogram series with all-zero buckets. -/
def freshHistSeries (buckets : List ℚ) : HistSeries :=
  { bucketCounts := List.replicate buckets.length 0, sampleCount := 0, sampleSum := 0 }

/-- Increment the count of the first bucket whose upper bound is at least the
observed value (cumulative counts are produced only at exposition time). -/
def observeBuckets : List ℚ → List Nat → ℚ → List Nat
  | _, [], _ => []
  | [], ns, _ => ns
  | b :: bs, n :: ns, v => if v ≤ b then (n + 1) :: ns else n :: observeBuckets bs ns v

/-- Observe one value into a histogram series. -/
def HistSeries.observe (s : HistSeries) (buckets : List ℚ) (v : ℚ) : HistSeries :=
  { bucketCounts := observeBuckets buckets s.bucketCounts v,
    sampleCount := s.sampleCount + 1,
    sampleSum := s.sampleSum + v }

/-- A prometheus HistogramVec: bucket boundaries are fixed at creation. -/
structure HistogramVec where
  fqName : String
  labelKeys : List String
  buckets : List ℚ
  series : List (List String × HistSeries)
deriving DecidableEq

/-- HistogramVec.With followed by Observe: panics on schema mismatch,
otherwise records the observation into the matching series. -/
def HistogramVec.withObserve (h : HistogramVec) (labels : MetricLabels) (v : ℚ) :
    GoOutcome HistogramVec :=
  match resolveLabelValues h.labelKeys labels with
  | none => .panicked "inconsistent label cardinality" h
  | some vals =>
    let cur : HistSeries := (alookup h.series vals).getD (freshHistSeries h.buckets)
    .ok { h with series := upsert h.series vals (cur.observe h.buckets v) }

/-- The global prometheus default histogram boundaries (prometheus.DefBuckets),
as exact rationals. -/
def DefBuckets : List ℚ :=
  [1/200, 1/100, 1/40, 1/20, 1/10, 1/4, 1/2, 1, 5/2, 5, 10]

/-- prometheus.ExponentialBuckets start factor count. -/
def ExponentialBuckets (start factor : ℚ) (count : Nat) : List ℚ :=
  (List.range count).map (fun i => start * factor ^ i)

/-- Config contains metrics configuration (config source file); time values
are in seconds, zero meaning unset, and HTTPBuckets is none for a Go nil
slice. -/
structure Config where
  ServiceName : String := ""
  Namespace : String := ""
  Subsystem : String := ""
  EnableHTTPMetrics : Bool := false
  HTTPBuckets : Option (List ℚ) := none
  EnableMetricsEndpoint : Bool := false
  EnableHealthEndpoint : Bool := false
  PushGatewayURL : String := ""
  PushInterval : Nat := 0
  GrafanaCloudURL : String := ""
  GrafanaCloudUser : String := ""
  GrafanaCloudAPIKey : String := ""
  ConstLabels : List (String × String) := []
deriving DecidableEq

/-- The default HTTP duration buckets used by NewMetrics and DefaultConfig. -/
def defaultHTTPBuckets : List ℚ :=
  [1/200, 1/100, 1/40, 1/20, 1/10, 1/4, 1/2, 1, 5/2, 5, 10]

/-- DefaultConfig returns the default configuration. -/
def DefaultConfig : Config :=
  { ServiceName := "app", Namespace := "app", EnableHTTPMetrics := true,
    EnableMetricsEndpoint := true, EnableHealthEndpoint := true,
    HTTPBuckets := some defaultHTTPBuckets, PushInterval := 15, ConstLabels := [] }

/-- HTTPMetrics contains the HTTP-related metric vectors plus the in-flight
gauge. -/
structure HTTPMetrics where
  RequestsTotal : CounterVec
  RequestDuration : HistogramVec
  RequestSize : HistogramVec
  ResponseSize : HistogramVec
  RequestsInFlight : ℚ
deriving DecidableEq

/-- initHTTPMetrics constructs the five HTTP metric objects from the
configuration (metrics.go). -/
def initHTTPMetrics (cfg : Config) : HTTPMetrics :=
  { RequestsTotal :=
      { fqName := buildFQName cfg.Namespace cfg.Subsystem "http_requests_total",
        labelKeys := ["method", "path", "status"], series := [] },
    RequestDuration :=
      { fqName := buildFQName cfg.Namespace cfg.Subsystem "http_request_duration_seconds",
        labelKeys := ["method", "path", "status"],
        buckets := cfg.HTTPBuckets.getD defaultHTTPBuckets, series := [] },
    RequestSize :=
      { fqName := buildFQName cfg.Namespace cfg.Subsystem "http_request_size_bytes",
        labelKeys := ["method", "path"],
        buckets := ExponentialBuckets 100 10 7, series := [] },
    ResponseSize :=
      { fqName := buildFQName cfg.Namespace cfg.Subsystem "http_response_size_bytes",
        labelKeys := ["method", "path"],
        buckets := ExponentialBuckets 100 10 7, series := [] },
    RequestsInFlight := 0 }

/-- Metrics is the main metrics collector: the resolved configuration, the
optional HTTP metrics, and the three kind-scoped name-to-vector maps. -/
structure Metrics where
  config : Config
  httpMetrics : Option HTTPMetrics
  counters : List (String × CounterVec)
  gauges : List (String × GaugeVec)
  histograms : List (String × HistogramVec)
deriving DecidableEq

/-- NewMetrics defaulting, first statement: default the namespace. -/
def defaultNamespaceStep (c : Config) : Config :=
  if c.Namespace = "" then { c with Namespace := "app" } else c

/-- NewMetrics defaulting, second statement: default the HTTP buckets. -/
def defaultBucketsStep (c : Config) : Config :=
  if c.HTTPBuckets = none then { c with HTTPBuckets := some defaultHTTPBuckets } else c

/-- NewMetrics defaulting, third statement: default the push interval. -/
def defaultIntervalStep (c : Config) : Config :=
  if c.PushInterval = 0 then { c with PushInterval := 15 } else c

/-- NewMetrics defaulting: enable HTTP metrics when unset and a service name
is present (Go cannot distinguish an explicit false from unset). -/
def enableHTTPStep (c : Config) : Config :=
  if !c.EnableHTTPMetrics && c.ServiceName ≠ ""
  then { c with EnableHTTPMetrics := true } else c

/-- NewMetrics defaulting: enable the metrics endpoint likewise. -/
def enableMetricsEndpointStep (c : Config) : Config :=
  if !c.EnableMetricsEndpoint && c.ServiceName ≠ ""
  then { c with EnableMetricsEndpoint := true } else c

/-- NewMetrics defaulting: enable the health endpoint likewise. -/
def enableHealthEndpointStep (c : Config) : Config :=
  if !c.EnableHealthEndpoint && c.ServiceName ≠ ""
  then { c with EnableHealthEndpoint := true } else c

/-- The defaulting pass NewMetrics applies to a non-nil caller config: the
six statements of the else branch, in source order. -/
def applyDefaults (c : Config) : Config :=
  enableHealthEndpointStep (enableMetricsEndpointStep (enableHTTPStep
    (defaultIntervalStep (defaultBucketsStep (defaultNamespaceStep c)))))

/-- NewMetrics creates a new metrics collector, defaulting the configuration
and initializing HTTP metrics when enabled. -/
def NewMetrics (cfg : Option Config) : Metrics :=
  let config := match cfg with
    | none => DefaultConfig
    | some c => applyDefaults c
  let m : Metrics :=
    { config := config, httpMetrics := none,
      counters := [], gauges := [], histograms := [] }
  if config.EnableHTTPMetrics
  then { m with httpMetrics := some (initHTTPMetrics config) } else m

/-- getOrCreateCounter: returns the existing vector for the name, or creates,
registers and stores a fresh one with the supplied label keys as its schema. -/
def Metrics.getOrCreateCounter (m : Metrics) (name : String)
    (labelKeys : List String) : CounterVec × Metrics :=
  match alookup m.counters name with
  | some c => (c, m)
  | none =>
    let c : CounterVec :=
      { fqName := buildFQName m.config.Namespace m.config.Subsystem name,
        labelKeys := labelKeys, series := [] }
    (c, { m with counters := m.counters ++ [(name, c)] })

/-- getOrCreateGauge. -/
def Metrics.getOrCreateGauge (m : Metrics) (name : String)
    (labelKeys : List String) : GaugeVec × Metrics :=
  match alookup m.gauges name with
  | some g => (g, m)
  | none =>
    let g : GaugeVec :=
      { fqName := buildFQName m.config.Namespace m.config.Subsystem name,
        labelKeys := labelKeys, series := [] }
    (g, { m with gauges := m.gauges ++ [(name, g)] })

/-- getOrCreateHistogram: fresh histograms are bound to the global default
boundaries prometheus.DefBuckets. -/
def Metrics.getOrCreateHistogram (m : Metrics) (name : String)
    (labelKeys : List String) : HistogramVec × Metrics :=
  match alookup m.histograms name with
  | some h => (h, m)
  | none =>
    let h : HistogramVec :=
      { fqName := buildFQName m.config.Namespace m.config.Subsystem name,
        labelKeys := labelKeys, buckets := DefBuckets, series := [] }
    (h, { m with histograms := m.histograms ++ [(name, h)] })

/-- IncrementCounterBy increments a counter by a specific value; the write
back into the counters map models the pointer-shared vector mutation, which
persists even when With or Add panics. -/
def Metrics.IncrementCounterBy (m : Metrics) (name : String) (value : ℚ)
    (labels : MetricLabels) : GoOutcome Metrics :=
  let r := m.getOrCreateCounter name (getLabelKeys labels)
  match r.1.withAdd labels value with
  | .ok c' => .ok { r.2 with counters := upsert r.2.counters name c' }
  | .panicked msg c' =>
    .panicked msg { r.2 with counters := upsert r.2.counters name c' }

/-- IncrementCounter increments a counter metric by one. -/
def Metrics.IncrementCounter (m : Metrics) (name : String)
    (labels : MetricLabels) : GoOutcome Metrics :=
  m.IncrementCounterBy name 1 labels

/-- SetGauge sets a gauge metric value. -/
def Metrics.SetGauge (m : Metrics) (name : String) (value : ℚ)
    (labels : MetricLabels) : GoOutcome Metrics :=
  let r := m.getOrCreateGauge name (getLabelKeys labels)
  match r.1.withSet labels value with
  | .ok g' => .ok { r.2 with gauges := upsert r.2.gauges name g' }
  | .panicked msg g' =>
    .panicked msg { r.2 with gauges := upsert r.2.gauges name g' }

/-- IncrementGauge increments a gauge metric. -/
def Metrics.IncrementGauge (m : Metrics) (name : String)
    (labels : MetricLabels) : GoOutcome Metrics :=
  let r := m.getOrCreateGauge name (getLabelKeys labels)
  match r.1.withInc labels with
  | .ok g' => .ok { r.2 with gauges := upsert r.2.gauges name g' }
  | .panicked msg g' =>
    .panicked msg { r.2 with gauges := upsert r.2.gauges name g' }

/-- DecrementGauge decrements a gauge metric. -/
def Metrics.DecrementGauge (m : Metrics) (name : String)
    (labels : MetricLabels) : GoOutcome Metrics :=
  let r := m.getOrCreateGauge name (getLabelKeys labels)
  match r.1.withDec labels with
  | .ok g' => .ok { r.2 with gauges := upsert r.2.gauges name g' }
  | .panicked msg g' =>
    .panicked msg { r.2 with gauges := upsert r.2.gauges name g' }

/-- RecordHistogram records a histogram observation. -/
def Metrics.RecordHistogram (m : Metrics) (name : String) (value : ℚ)
    (labels : MetricLabels) : GoOutcome Metrics :=
  let r := m.getOrCreateHistogram name (getLabelKeys labels)
  match r.1.withObserve labels value with
  | .ok h' => .ok { r.2 with histograms := upsert r.2.histograms name h' }
  | .panicked msg h' =>
    .panicked msg { r.2 with histograms := upsert r.2.histograms name h' }

/-- The raw value of one counter series, identified by the stored label-value
key; zero when the metric or the series does not exist. -/
def counterSeriesRaw (m : Metrics) (name : String) (vals : List String) : ℚ :=
  match alookup m.counters name with
  | none => 0
  | some c => (alookup c.series vals).getD 0

/-- The value of the counter series addressed by a label map through the
vector's own schema; zero when absent or unresolvable. -/
def counterValue (m : Metrics) (name : String) (labels : MetricLabels) : ℚ :=
  match alookup m.counters name with
  | none => 0
  | some c =>
    match resolveLabelValues c.labelKeys labels with
    | none => 0
    | some vals => (alookup c.series vals).getD 0

/-- Sample count and sum of the histogram series addressed by a label map. -/
def histogramSeriesStats (m : Metrics) (name : String) (labels : MetricLabels) :
    Nat × ℚ :=
  match alookup m.histograms name with
  | none => (0, 0)
  | some h =>
    match resolveLabelValues h.labelKeys labels with
    | none => (0, 0)
    | some vals =>
      let s := (alookup h.series vals).getD (freshHistSeries h.buckets)
      (s.sampleCount, s.sampleSum)

instance {ε α : Type} [DecidableEq ε] [DecidableEq α] : DecidableEq (Except ε α) :=
  fun a b =>
    match a, b with
    | .ok x, .ok y =>
      if h : x = y then isTrue (by rw [h])
      else isFalse (fun hh => h (by cases hh; rfl))
    | .error x, .error y =>
      if h : x = y then isTrue (by rw [h])
      else isFalse (fun hh => h (by cases hh; rfl))
    | .ok _, .error _ => isFalse (fun hh => by cases hh)
    | .error _, .ok _ => isFalse (fun hh => by cases hh)

/-- Outcome environment of one family passed to the expfmt encoder: some e
when encoder.Encode fails with error e. -/
structure MetricFamilyEnc where
  encodeError : Option String
deriving DecidableEq

/-- The external outcomes one pushToGrafana invocation can observe: the
registry Gather result, the error of http.NewRequest construction when it
fails, and the result of client.Do (network error, or the response status). -/
structure TickEnv where
  gatherResult : Except String (List MetricFamilyEnc)
  newRequestError : Option String
  doResult : Except String Nat
deriving DecidableEq

/-- First encoder failure over the gathered families, mirroring the encode
loop that aborts on the first error. -/
def encodeAll : List MetricFamilyEnc → Option String
  | [] => none
  | f :: rest =>
    match f.encodeError with
    | some e => some e
    | none => encodeAll rest

/-- pushToGrafana: gather, encode each family, build the request, send it and
check the response status; returns the Go error result together with whether
an HTTP transmission was issued (client.Do was reached). -/
def pushToGrafana (env : TickEnv) : Except String Unit × Bool :=
  match env.gatherResult with
  | .error e => (.error ("failed to gather metrics: " ++ e), false)
  | .ok fams =>
    match encodeAll fams with
    | some e => (.error ("failed to encode metric: " ++ e), false)
    | none =>
      match env.newRequestError with
      | some e => (.error ("failed to create request: " ++ e), false)
      | none =>
        match env.doResult with
        | .error e => (.error ("failed to push metrics: " ++ e), true)
        | .ok status =>
          if status ≠ 200 ∧ status ≠ 204 then
            (.error ("push failed with status " ++ toString status), true)
          else (.ok (), true)

/-- True when the push result is the nil error (the push succeeded). -/
def pushOk : Except String Unit → Bool
  | .ok _ => true
  | .error _ => false

/-- One resolution of the select in the push loop: either the ticker fired
(with that tick's external environment) or the cancellation context fired. -/
inductive LoopEvent where
  | tick : TickEnv → LoopEvent
  | cancel : LoopEvent
deriving DecidableEq

/-- The push attempts performed by the for-select loop, one per ticker event,
stopping at the first cancellation; a failed push is only logged, so the loop
never stops because of a push outcome. -/
def loopTicks : List LoopEvent → List TickEnv
  | [] => []
  | .cancel :: _ => []
  | .tick env :: rest => env :: loopTicks rest

/-- The effective push interval (push.go lines 20-23): the configured value,
or 15 time units when unset. -/
def effectivePushInterval (cfg : Config) : Nat :=
  if cfg.PushInterval = 0 then 15 else cfg.PushInterval

/-- StartGrafanaPush as a trace of push attempts: when the push destination
URL or API key is unset the function returns before starting the goroutine
and the trace is empty; otherwise the loop pushes immediately once and then
once per ticker event until cancellation. -/
def StartGrafanaPush (cfg : Config) (firstEnv : TickEnv)
    (events : List LoopEvent) : List TickEnv :=
  if cfg.GrafanaCloudURL = "" ∨ cfg.GrafanaCloudAPIKey = "" then []
  else firstEnv :: loopTicks events

/-- Number of HTTP calls issued over a whole StartGrafanaPush run: one per
push attempt that reaches client.Do. -/
def httpCallsIssued (cfg : Config) (firstEnv : TickEnv)
    (events : List LoopEvent) : Nat :=
  ((StartGrafanaPush cfg firstEnv events).filter
    (fun env => (pushToGrafana env).2)).length

/-- The gather step failed for this tick. -/
def gatherFails (env : TickEnv) : Bool :=
  match env.gatherResult with
  | .error _ => true
  | .ok _ => false

/-- The encode step failed for this tick (gather succeeded, some family did
not encode). -/
def encodeFails (env : TickEnv) : Bool :=
  match env.gatherResult with
  | .error _ => false
  | .ok fams => (encodeAll fams).isSome

/-- Request construction failed for this tick (gather and encode succeeded,
http.NewRequest returned an error). -/
def requestBuildFails (env : TickEnv) : Bool :=
  match env.gatherResult with
  | .error _ => false
  | .ok fams => (encodeAll fams).isNone && env.newRequestError.isSome

/-- The fields of one handled Gin request that the middlewares read. -/
structure GinRequest where
  method : String
  urlPath : String
  fullPath : String
  contentLength : Int
  status : Nat
  durationSeconds : ℚ
  responseSize : Int
deriving DecidableEq

/-- Add to a counter series selected by explicit label values
(WithLabelValues; the value count matches the schema statically at every call
site modelled here). -/
def CounterVec.addLV (c : CounterVec) (vals : List String) (v : ℚ) : CounterVec :=
  let cur : ℚ := (alookup c.series vals).getD 0
  { c with series := upsert c.series vals (cur + v) }

/-- Observe into a histogram series selected by explicit label values. -/
def HistogramVec.observeLV (h : HistogramVec) (vals : List String) (v : ℚ) :
    HistogramVec :=
  let cur : HistSeries := (alookup h.series vals).getD (freshHistSeries h.buckets)
  { h with series := upsert h.series vals (cur.observe h.buckets v) }

/-- An abbreviated table of Go's http.StatusText, sufficient for the statuses
modelled here; Go returns the empty string for codes outside its table. -/
def statusText (code : Nat) : String :=
  if code = 200 then "OK"
  else if code = 201 then "Created"
  else if code = 204 then "No Content"
  else if code = 400 then "Bad Request"
  else if code = 404 then "Not Found"
  else if code = 500 then "Internal Server Error"
  else ""

/-- Middleware (gin middleware source file): records request size when the
content length is positive, then the request counter, the duration histogram
and the response size, labelling the status with its decimal form; the
in-flight gauge is incremented and decremented again by the deferred call, so
its net effect over a completed request is zero.  This middleware has no
path-based exclusion: only the nil-httpMetrics case is a no-op. -/
def Metrics.MiddlewareHandle (m : Metrics) (req : GinRequest) : Metrics :=
  match m.httpMetrics with
  | none => m
  | some hm =>
    let hm := if req.contentLength > 0 then
        { hm with RequestSize :=
            hm.RequestSize.observeLV [req.method, req.fullPath] (req.contentLength : ℚ) }
      else hm
    let st := toString req.status
    let hm := { hm with RequestsTotal :=
        hm.RequestsTotal.addLV [req.method, req.fullPath, st] 1 }
    let hm := { hm with RequestDuration :=
        hm.RequestDuration.observeLV [req.method, req.fullPath, st] req.durationSeconds }
    let hm := { hm with ResponseSize :=
        hm.ResponseSize.observeLV [req.method, req.fullPath] (req.responseSize : ℚ) }
    { m with httpMetrics := some hm }

/-- GinMiddleware (middleware source file): a no-op when HTTP metrics are
disabled, and requests whose URL path is /metrics are skipped before any
metric is touched; otherwise records the same measurements as Middleware,
labelling the status with http.StatusText and recording the response size
only when positive.  NewMetrics never produces EnableHTTPMetrics true with a
nil httpMetrics, so the nil fallback below is unreachable from NewMetrics. -/
def Metrics.GinMiddlewareHandle (m : Metrics) (req : GinRequest) : Metrics :=
  if !m.config.EnableHTTPMetrics then m
  else if req.urlPath = "/metrics" then m
  else
    match m.httpMetrics with
    | none => m
    | some hm =>
      let hm := if req.contentLength > 0 then
          { hm with RequestSize :=
              hm.RequestSize.observeLV [req.method, req.fullPath] (req.contentLength : ℚ) }
        else hm
      let st := statusText req.status
      let hm := { hm with RequestsTotal :=
          hm.RequestsTotal.addLV [req.method, req.fullPath, st] 1 }
      let hm := { hm with RequestDuration :=
          hm.RequestDuration.observeLV [req.method, req.fullPath, st] req.durationSeconds }
      let hm := if req.responseSize > 0 then
          { hm with ResponseSize :=
              hm.ResponseSize.observeLV [req.method, req.fullPath] (req.responseSize : ℚ) }
        else hm
      { m with httpMetrics := some hm }

/-- A push-tick environment whose transmission gets a 201 Created response. -/
def env201 : TickEnv :=
  { gatherResult := .ok [], newRequestError := none, doResult := .ok 201 }

/-- A push-tick environment whose transmission gets 204 No Content. -/
def env204 : TickEnv :=
  { gatherResult := .ok [], newRequestError := none, doResult := .ok 204 }

/-- A push-tick environment whose transmission gets 200 OK. -/
def tickOk200 : TickEnv :=
  { gatherResult := .ok [], newRequestError := none, doResult := .ok 200 }

/-- A push-tick environment whose transmission gets 500. -/
def tick500 : TickEnv :=
  { gatherResult := .ok [], newRequestError := none, doResult := .ok 500 }

/-- A push-tick environment whose gather step fails. -/
def gatherFailEnv : TickEnv :=
  { gatherResult := .error "collect failed", newRequestError := none,
    doResult := .ok 200 }

/-- A configuration with the Grafana push destination and key set. -/
def enabledCfg : Config :=
  { GrafanaCloudURL := "https://prometheus.example/api/prom/push",
    GrafanaCloudAPIKey := "key" }

/-- A config that explicitly disables all three HTTP-related flags. -/
def allFalseCfg : Config :=
  { ServiceName := "svc", EnableHTTPMetrics := false,
    EnableMetricsEndpoint := false, EnableHealthEndpoint := false }

/-- A GET request to the /metrics path. -/
def reqMetricsPath : GinRequest :=
  { method := "GET", urlPath := "/metrics", fullPath := "/metrics",
    contentLength := 0, status := 200, durationSeconds := 0, responseSize := 128 }

/-- A metrics collector with HTTP metrics initialized. -/
def httpExample : Metrics := NewMetrics (some { ServiceName := "svc" })

/-- The label schema bound to a counter name, when one is bound. -/
def counterKeys (m : Metrics) (name : String) : Option (List String) :=
  (alookup m.counters name).map CounterVec.labelKeys

/-- The label schema bound to a gauge name, when one is bound. -/
def gaugeKeys (m : Metrics) (name : String) : Option (List String) :=
  (alookup m.gauges name).map GaugeVec.labelKeys

/-- The label schema bound to a histogram name, when one is bound. -/
def histogramKeys (m : Metrics) (name : String) : Option (List String) :=
  (alookup m.histograms name).map HistogramVec.labelKeys

/-- The call panicked (crashed the caller) and the collector state it left
behind is the original one: no series was corrupted. -/
def crashedUnchanged (o : GoOutcome Metrics) (m : Metrics) : Prop :=
  o.crashed = true ∧ o.state = m

/-- A collector state with one counter (schema a, series value 1), one gauge
(schema b) and one histogram (schema d) bound, exactly as left behind by an
IncrementCounter, SetGauge and RecordHistogram call on a fresh collector. -/
def boundExample : Metrics :=
  { config := DefaultConfig, httpMetrics := none,
    counters := [("c_total", { fqName := "app_c_total", labelKeys := ["a"],
                               series := [(["1"], 1)] })],
    gauges := [("g_val", { fqName := "app_g_val", labelKeys := ["b"],
                           series := [(["1"], 2)] })],
    histograms := [("h_val", { fqName := "app_h_val", labelKeys := ["d"],
                               buckets := DefBuckets, series := [] })] }

/-- A collector with empty registries, as NewMetrics builds before any
instrumentation call (HTTP metrics left disabled). -/
def emptyMetrics : Metrics :=
  { config := DefaultConfig, httpMetrics := none,
    counters := [], gauges := [], histograms := [] }

/-- A collector holding the histogram h after recording the values 0.1, 0.2
and 5.0 with no labels. -/
def histExample : Metrics :=
  (((emptyMetrics.RecordHistogram "h" (1/10) []).state.RecordHistogram "h"
      (1/5) []).state.RecordHistogram "h" 5 []).state

/-- The counter vector stored in boundExample under the name c_total. -/
def cTotalVec : CounterVec :=
  { fqName := "app_c_total", labelKeys := ["a"], series := [(["1"], 1)] }

/-- The gauge vector stored in boundExample under the name g_val. -/
def gValVec : GaugeVec :=
  { fqName := "app_g_val", labelKeys := ["b"], series := [(["1"], 2)] }

/-- The histogram vector stored in boundExample under the name h_val. -/
def hValVec : HistogramVec :=
  { fqName := "app_h_val", labelKeys := ["d"], buckets := DefBuckets, series := [] }

theorem alookup_updateFirst_self {κ α : Type} [DecidableEq κ]
    (l : List (κ × α)) (k : κ) (v : α) (h : (alookup l k).isSome) :
    alookup (updateFirst l k v) k = some v := by
  induction l with
  | nil => simp [alookup] at h
  | cons p rest ih =>
    obtain ⟨k', v'⟩ := p
    by_cases hk : k' = k
    · subst hk; simp [alookup, updateFirst]
    · simp [alookup, updateFirst, hk] at h ⊢
      exact ih h

theorem alookup_updateFirst_ne {κ α : Type} [DecidableEq κ]
    (l : List (κ × α)) (k k' : κ) (v : α) (h : k' ≠ k) :
    alookup (updateFirst l k v) k' = alookup l k' := by
  induction l with
  | nil => simp [updateFirst]
  | cons p rest ih =>
    obtain ⟨k0, v0⟩ := p
    have hkk : ¬ k = k' := fun hh => h hh.symm
    by_cases hk : k0 = k
    · simp [updateFirst, alookup, hk, hkk]
    · simp [updateFirst, alookup, hk, ih]

theorem updateFirst_cancel {κ α : Type} [DecidableEq κ]
    (l : List (κ × α)) (k : κ) (v : α) (h : alookup l k = some v) :
    updateFirst l k v = l := by
  induction l with
  | nil => simp [updateFirst]
  | cons p rest ih =>
    obtain ⟨k0, v0⟩ := p
    by_cases hk : k0 = k
    · subst hk
      simp [alookup] at h
      simp [updateFirst, h]
    · simp [alookup, hk] at h
      simp [updateFirst, hk, ih h]

theorem alookup_append_left {κ α : Type} [DecidableEq κ]
    (l l₂ : List (κ × α)) (k : κ) (x : α) (h : alookup l k = some x) :
    alookup (l ++ l₂) k = some x := by
  induction l with
  | nil => simp [alookup] at h
  | cons p rest ih =>
    obtain ⟨k0, v0⟩ := p
    by_cases hk : k0 = k
    · subst hk; simp [alookup] at h ⊢; exact h
    · simp [alookup, hk] at h ⊢; exact ih h

theorem alookup_append_none {κ α : Type} [DecidableEq κ]
    (l l₂ : List (κ × α)) (k : κ) (h : alookup l k = none) :
    alookup (l ++ l₂) k = alookup l₂ k := by
  induction l with
  | nil => simp
  | cons p rest ih =>
    obtain ⟨k0, v0⟩ := p
    by_cases hk : k0 = k
    · subst hk; simp [alookup] at h
    · simp [alookup, hk] at h ⊢; exact ih h

theorem alookup_none_iff_not_isSome {κ α : Type} [DecidableEq κ]
    (l : List (κ × α)) (k : κ) :
    alookup l k = none ↔ ¬ (alookup l k).isSome = true := by
  cases h : alookup l k <;> simp

theorem alookup_upsert_self {κ α : Type} [DecidableEq κ]
    (l : List (κ × α)) (k : κ) (v : α) :
    alookup (upsert l k v) k = some v := by
  unfold upsert
  by_cases h : (alookup l k).isSome
  · simp [h, alookup_updateFirst_self _ _ _ h]
  · have hn : alookup l k = none := (alookup_none_iff_not_isSome l k).mpr h
    simp [h]
    rw [alookup_append_none _ _ _ hn]
    simp [alookup]

theorem alookup_upsert_ne {κ α : Type} [DecidableEq κ]
    (l : List (κ × α)) (k k' : κ) (v : α) (h : k' ≠ k) :
    alookup (upsert l k v) k' = alookup l k' := by
  unfold upsert
  by_cases hs : (alookup l k).isSome
  · simp [hs, alookup_updateFirst_ne _ _ _ _ h]
  · simp [hs]
    cases hh : alookup l k' with
    | some x => rw [alookup_append_left _ _ _ _ hh]
    | none =>
      rw [alookup_append_none _ _ _ hh]
      have hkk : ¬ k = k' := fun hhh => h hhh.symm
      simp [alookup, hkk]

theorem upsert_cancel {κ α : Type} [DecidableEq κ]
    (l : List (κ × α)) (k : κ) (v : α) (h : alookup l k = some v) :
    upsert l k v = l := by
  unfold upsert
  simp [h]
  exact updateFirst_cancel _ _ _ h

theorem alookup_isSome_iff_mem_keys (labels : MetricLabels) (k : String) :
    (alookup labels k).isSome = true ↔ k ∈ getLabelKeys labels := by
  induction labels with
  | nil => simp [alookup, getLabelKeys]
  | cons p rest ih =>
    obtain ⟨k0, v0⟩ := p
    have hg : getLabelKeys ((k0, v0) :: rest) = k0 :: getLabelKeys rest := rfl
    rw [hg, List.mem_cons]
    by_cases hk : k0 = k
    · simp [alookup, hk]
    · have hkk : ¬ k = k0 := fun hh => hk hh.symm
      constructor
      · intro hs
        exact Or.inr (ih.mp (by simpa [alookup, hk] using hs))
      · intro hm
        rcases hm with hm | hm
        · exact absurd hm hkk
        · simpa [alookup, hk] using ih.mpr hm

theorem resolveVals_isSome (ks : List String) (labels : MetricLabels)
    (h : ∀ k ∈ ks, k ∈ getLabelKeys labels) :
    (resolveVals ks labels).isSome = true := by
  induction ks with
  | nil => simp [resolveVals]
  | cons k ks ih =>
    have h1 : (alookup labels k).isSome = true :=
      (alookup_isSome_iff_mem_keys labels k).mpr (h k (by simp))
    have h2 := ih (fun k' hk' => h k' (by simp [hk']))
    unfold resolveVals
    cases hh1 : alookup labels k with
    | none => rw [hh1] at h1; simp at h1
    | some v =>
      cases hh2 : resolveVals ks labels with
      | none => rw [hh2] at h2; simp at h2
      | some vs => simp

theorem resolveVals_mem_of_isSome (ks : List String) (labels : MetricLabels)
    (h : (resolveVals ks labels).isSome = true) :
    ∀ k ∈ ks, k ∈ getLabelKeys labels := by
  induction ks with
  | nil => simp
  | cons k ks ih =>
    unfold resolveVals at h
    cases hh1 : alookup labels k with
    | none => rw [hh1] at h; simp at h
    | some v =>
      cases hh2 : resolveVals ks labels with
      | none => rw [hh1, hh2] at h; simp at h
      | some vs =>
        intro k' hk'
        rcases List.mem_cons.mp hk' with hk' | hk'
        · subst hk'
          exact (alookup_isSome_iff_mem_keys labels k').mp (by simp [hh1])
        · exact ih (by simp [hh2]) k' hk'

theorem resolveLabelValues_self (labels : MetricLabels) :
    (resolveLabelValues (getLabelKeys labels) labels).isSome = true := by
  unfold resolveLabelValues
  simp [getLabelKeys]
  exact resolveVals_isSome _ _ (fun k hk => hk)

theorem resolveLabelValues_eq_none_of_not_sameKeySet
    (keys : List String) (labels : MetricLabels)
    (hk : keys.Nodup) (hl : (getLabelKeys labels).Nodup)
    (hne : ¬ sameKeySet keys (getLabelKeys labels)) :
    resolveLabelValues keys labels = none := by
  unfold resolveLabelValues
  by_cases hlen : labels.length = keys.length
  · rw [if_pos hlen]
    cases hres : resolveVals keys labels with
    | none => rfl
    | some vals =>
      exfalso
      apply hne
      have hsub : ∀ k ∈ keys, k ∈ getLabelKeys labels :=
        resolveVals_mem_of_isSome keys labels (by simp [hres])
      have hsp : List.Subperm keys (getLabelKeys labels) :=
        List.subperm_of_subset hk (fun k hmem => hsub k hmem)
      have hlg : (getLabelKeys labels).length = labels.length := by
        simp [getLabelKeys]
      have hlen2 : (getLabelKeys labels).length ≤ keys.length := by omega
      have hperm := hsp.perm_of_length_le hlen2
      exact ⟨fun k hmem => hperm.subset hmem, fun k hmem => hperm.symm.subset hmem⟩
  · rw [if_neg hlen]

theorem resolveLabelValues_isSome_of_sameKeySet
    (keys : List String) (labels : MetricLabels)
    (hk : keys.Nodup) (hl : (getLabelKeys labels).Nodup)
    (hs : sameKeySet keys (getLabelKeys labels)) :
    (resolveLabelValues keys labels).isSome = true := by
  have hperm : keys.Perm (getLabelKeys labels) :=
    (List.subperm_of_subset hk (fun k hmem => hs.1 k hmem)).antisymm
      (List.subperm_of_subset hl (fun k hmem => hs.2 k hmem))
  unfold resolveLabelValues
  have hlen : labels.length = keys.length := by
    have h1 := hperm.length_eq
    have h2 : (getLabelKeys labels).length = labels.length := by simp [getLabelKeys]
    omega
  simp [hlen]
  exact resolveVals_isSome _ _ (fun k hmem => hs.1 k hmem)

/-- Claim C4 counterexample: the claim says any 2xx status is not a push
failure, but a 201 Created response (a 2xx status other than 200) makes
pushToGrafana report a failure. -/
theorem push_any_2xx_success_refuted :
    (200 ≤ 201 ∧ 201 < 300) ∧ pushOk (pushToGrafana env201).1 = false := by
  exact ⟨⟨by omega, by omega⟩, by decide⟩

/-- Claim C4 (amended): under a completed transmission, the push succeeds
exactly when the response status is 200 or 204; every other status, 2xx
included, is reported as a push failure, and the HTTP call was issued. -/
theorem push_success_iff_status_200_or_204
    (env : TickEnv) (fams : List MetricFamilyEnc) (status : Nat)
    (hg : env.gatherResult = .ok fams) (he : encodeAll fams = none)
    (hr : env.newRequestError = none) (hd : env.doResult = .ok status) :
    (pushToGrafana env).2 = true
    ∧ (pushOk (pushToGrafana env).1 = true ↔ (status = 200 ∨ status = 204)) := by
  have hred : pushToGrafana env =
      (if status ≠ 200 ∧ status ≠ 204 then
        (.error ("push failed with status " ++ toString status), true)
      else (.ok (), true)) := by
    simp [pushToGrafana, hg, he, hr, hd]
  rw [hred]
  by_cases hc : status ≠ 200 ∧ status ≠ 204
  · rw [if_pos hc]
    refine ⟨rfl, ?_⟩
    simp [pushOk]
    tauto
  · rw [if_neg hc]
    refine ⟨rfl, ?_⟩
    simp [pushOk]
    tauto

/-- Witness for push_success_iff_status_200_or_204 at a 204 response. -/
theorem push_success_iff_status_200_or_204_witness :
    (env204.gatherResult = .ok [] ∧ encodeAll [] = none
      ∧ env204.newRequestError = none ∧ env204.doResult = .ok 204)
    ∧ ((pushToGrafana env204).2 = true
      ∧ (pushOk (pushToGrafana env204).1 = true ↔ (204 = 200 ∨ 204 = 204))) :=
  ⟨⟨rfl, rfl, rfl, rfl⟩,
   push_success_iff_status_200_or_204 env204 [] 204 rfl rfl rfl rfl⟩

/-- Claim C5 (confirmed): with an unset push destination URL or API key,
StartGrafanaPush starts no loop: the push-attempt trace is empty and no HTTP
call is issued, over any sequence of interval periods. -/
theorem disabled_push_issues_no_http_calls
    (cfg : Config) (firstEnv : TickEnv) (events : List LoopEvent)
    (h : cfg.GrafanaCloudURL = "" ∨ cfg.GrafanaCloudAPIKey = "") :
    StartGrafanaPush cfg firstEnv events = [] ∧ httpCallsIssued cfg firstEnv events = 0 := by
  have h1 : StartGrafanaPush cfg firstEnv events = [] := by
    unfold StartGrafanaPush
    rw [if_pos h]
  refine ⟨h1, ?_⟩
  unfold httpCallsIssued
  rw [h1]
  rfl

/-- Witness for disabled_push_issues_no_http_calls: a default (all-unset)
configuration over three tick periods. -/
theorem disabled_push_issues_no_http_calls_witness :
    (({} : Config).GrafanaCloudURL = "" ∨ ({} : Config).GrafanaCloudAPIKey = "")
    ∧ (StartGrafanaPush {} tickOk200
        [LoopEvent.tick tickOk200, LoopEvent.tick tickOk200, LoopEvent.tick tickOk200] = []
      ∧ httpCallsIssued {} tickOk200
        [LoopEvent.tick tickOk200, LoopEvent.tick tickOk200, LoopEvent.tick tickOk200] = 0) :=
  ⟨Or.inl rfl,
   disabled_push_issues_no_http_calls {} tickOk200
     [LoopEvent.tick tickOk200, LoopEvent.tick tickOk200, LoopEvent.tick tickOk200]
     (Or.inl rfl)⟩

/-- Claim C6 (confirmed): with push enabled the loop pushes once immediately,
then exactly one attempt per ticker event until the first cancellation; a
tick whose push fails (for example a 500 response) does not stop the loop:
the next tick is still processed. -/
theorem push_loop_immediate_per_tick_until_cancel
    (cfg : Config) (firstEnv envF : TickEnv) (events rest : List LoopEvent)
    (hurl : cfg.GrafanaCloudURL ≠ "") (hkey : cfg.GrafanaCloudAPIKey ≠ "")
    (hfail : pushOk (pushToGrafana envF).1 = false) :
    StartGrafanaPush cfg firstEnv events = firstEnv :: loopTicks events
    ∧ (∀ e r, loopTicks (LoopEvent.tick e :: r) = e :: loopTicks r)
    ∧ (∀ r, loopTicks (LoopEvent.cancel :: r) = [])
    ∧ loopTicks (LoopEvent.tick envF :: rest) = envF :: loopTicks rest := by
  refine ⟨?_, fun e r => rfl, fun r => rfl, rfl⟩
  unfold StartGrafanaPush
  rw [if_neg (not_or.mpr ⟨hurl, hkey⟩)]

/-- Witness for push_loop_immediate_per_tick_until_cancel: an enabled
configuration, a failing 500 tick followed by another tick, then cancel. -/
theorem push_loop_immediate_per_tick_until_cancel_witness :
    (enabledCfg.GrafanaCloudURL ≠ "" ∧ enabledCfg.GrafanaCloudAPIKey ≠ ""
      ∧ pushOk (pushToGrafana tick500).1 = false)
    ∧ (StartGrafanaPush enabledCfg tickOk200
        [LoopEvent.tick tick500, LoopEvent.tick tickOk200, LoopEvent.cancel]
        = tickOk200 :: loopTicks [LoopEvent.tick tick500, LoopEvent.tick tickOk200, LoopEvent.cancel]
      ∧ (∀ e r, loopTicks (LoopEvent.tick e :: r) = e :: loopTicks r)
      ∧ (∀ r, loopTicks (LoopEvent.cancel :: r) = [])
      ∧ loopTicks (LoopEvent.tick tick500 :: [LoopEvent.tick tickOk200])
          = tick500 :: loopTicks [LoopEvent.tick tickOk200]) :=
  ⟨⟨by decide, by decide, by decide⟩,
   push_loop_immediate_per_tick_until_cancel enabledCfg tickOk200 tick500
     [LoopEvent.tick tick500, LoopEvent.tick tickOk200, LoopEvent.cancel]
     [LoopEvent.tick tickOk200] (by decide) (by decide) (by decide)⟩

/-- Claim C7 (confirmed): when the gather step, the encode step or request
construction fails, pushToGrafana returns an error without reaching
client.Do (no HTTP transmission), and the loop schedules nothing extra: the
tick contributes exactly one attempt and the loop moves on to the next
regular tick. -/
theorem pre_transmit_failure_no_http_no_retry (env : TickEnv)
    (h : gatherFails env = true ∨ encodeFails env = true ∨ requestBuildFails env = true) :
    pushOk (pushToGrafana env).1 = false ∧ (pushToGrafana env).2 = false
    ∧ (∀ rest, loopTicks (LoopEvent.tick env :: rest) = env :: loopTicks rest) := by
  have key : pushOk (pushToGrafana env).1 = false ∧ (pushToGrafana env).2 = false := by
    rcases h with h | h | h
    · unfold gatherFails at h
      cases hg : env.gatherResult with
      | error e => simp [pushToGrafana, hg, pushOk]
      | ok fams => rw [hg] at h; simp at h
    · unfold encodeFails at h
      cases hg : env.gatherResult with
      | error e => rw [hg] at h; simp at h
      | ok fams =>
        rw [hg] at h
        cases he : encodeAll fams with
        | none => simp [he] at h
        | some e => simp [pushToGrafana, hg, he, pushOk]
    · unfold requestBuildFails at h
      cases hg : env.gatherResult with
      | error e => rw [hg] at h; simp at h
      | ok fams =>
        rw [hg] at h
        cases he : encodeAll fams with
        | some e => simp [he] at h
        | none =>
          cases hr : env.newRequestError with
          | none => simp [he, hr] at h
          | some e => simp [pushToGrafana, hg, he, hr, pushOk]
  exact ⟨key.1, key.2, fun rest => rfl⟩

/-- Witness for pre_transmit_failure_no_http_no_retry at a failed gather. -/
theorem pre_transmit_failure_no_http_no_retry_witness :
    (gatherFails gatherFailEnv = true ∨ encodeFails gatherFailEnv = true
      ∨ requestBuildFails gatherFailEnv = true)
    ∧ (pushOk (pushToGrafana gatherFailEnv).1 = false
      ∧ (pushToGrafana gatherFailEnv).2 = false
      ∧ (∀ rest, loopTicks (LoopEvent.tick gatherFailEnv :: rest)
          = gatherFailEnv :: loopTicks rest)) :=
  ⟨Or.inl (by decide),
   pre_transmit_failure_no_http_no_retry gatherFailEnv (Or.inl (by decide))⟩

/-- Claim C10 (confirmed): for a non-nil config with a non-empty
ServiceName, NewMetrics leaves all three Enable flags true (an explicit
false is indistinguishable from unset and gets overridden) and HTTP metrics
are always initialized. -/
theorem defaultNamespaceStep_preserves (c : Config) :
    (defaultNamespaceStep c).ServiceName = c.ServiceName
    ∧ (defaultNamespaceStep c).EnableHTTPMetrics = c.EnableHTTPMetrics
    ∧ (defaultNamespaceStep c).EnableMetricsEndpoint = c.EnableMetricsEndpoint
    ∧ (defaultNamespaceStep c).EnableHealthEndpoint = c.EnableHealthEndpoint := by
  unfold defaultNamespaceStep
  split <;> exact ⟨rfl, rfl, rfl, rfl⟩

theorem defaultBucketsStep_preserves (c : Config) :
    (defaultBucketsStep c).ServiceName = c.ServiceName
    ∧ (defaultBucketsStep c).EnableHTTPMetrics = c.EnableHTTPMetrics
    ∧ (defaultBucketsStep c).EnableMetricsEndpoint = c.EnableMetricsEndpoint
    ∧ (defaultBucketsStep c).EnableHealthEndpoint = c.EnableHealthEndpoint := by
  unfold defaultBucketsStep
  split <;> exact ⟨rfl, rfl, rfl, rfl⟩

theorem defaultIntervalStep_preserves (c : Config) :
    (defaultIntervalStep c).ServiceName = c.ServiceName
    ∧ (defaultIntervalStep c).EnableHTTPMetrics = c.EnableHTTPMetrics
    ∧ (defaultIntervalStep c).EnableMetricsEndpoint = c.EnableMetricsEndpoint
    ∧ (defaultIntervalStep c).EnableHealthEndpoint = c.EnableHealthEndpoint := by
  unfold defaultIntervalStep
  split <;> exact ⟨rfl, rfl, rfl, rfl⟩

theorem enableHTTPStep_preserves (c : Config) :
    (enableHTTPStep c).ServiceName = c.ServiceName
    ∧ (enableHTTPStep c).EnableMetricsEndpoint = c.EnableMetricsEndpoint
    ∧ (enableHTTPStep c).EnableHealthEndpoint = c.EnableHealthEndpoint := by
  unfold enableHTTPStep
  split <;> exact ⟨rfl, rfl, rfl⟩

theorem enableHTTPStep_sets (c : Config) (hs : c.ServiceName ≠ "") :
    (enableHTTPStep c).EnableHTTPMetrics = true := by
  unfold enableHTTPStep
  cases he : c.EnableHTTPMetrics
  · rw [if_pos (by simp [he, hs])]
  · rw [if_neg (by simp [he])]
    exact he

theorem enableMetricsEndpointStep_preserves (c : Config) :
    (enableMetricsEndpointStep c).ServiceName = c.ServiceName
    ∧ (enableMetricsEndpointStep c).EnableHTTPMetrics = c.EnableHTTPMetrics
    ∧ (enableMetricsEndpointStep c).EnableHealthEndpoint = c.EnableHealthEndpoint := by
  unfold enableMetricsEndpointStep
  split <;> exact ⟨rfl, rfl, rfl⟩

theorem enableMetricsEndpointStep_sets (c : Config) (hs : c.ServiceName ≠ "") :
    (enableMetricsEndpointStep c).EnableMetricsEndpoint = true := by
  unfold enableMetricsEndpointStep
  cases he : c.EnableMetricsEndpoint
  · rw [if_pos (by simp [he, hs])]
  · rw [if_neg (by simp [he])]
    exact he

theorem enableHealthEndpointStep_preserves (c : Config) :
    (enableHealthEndpointStep c).ServiceName = c.ServiceName
    ∧ (enableHealthEndpointStep c).EnableHTTPMetrics = c.EnableHTTPMetrics
    ∧ (enableHealthEndpointStep c).EnableMetricsEndpoint = c.EnableMetricsEndpoint := by
  unfold enableHealthEndpointStep
  split <;> exact ⟨rfl, rfl, rfl⟩

theorem enableHealthEndpointStep_sets (c : Config) (hs : c.ServiceName ≠ "") :
    (enableHealthEndpointStep c).EnableHealthEndpoint = true := by
  unfold enableHealthEndpointStep
  cases he : c.EnableHealthEndpoint
  · rw [if_pos (by simp [he, hs])]
  · rw [if_neg (by simp [he])]
    exact he

theorem applyDefaults_flags (c : Config) (hs : c.ServiceName ≠ "") :
    (applyDefaults c).EnableHTTPMetrics = true
    ∧ (applyDefaults c).EnableMetricsEndpoint = true
    ∧ (applyDefaults c).EnableHealthEndpoint = true := by
  unfold applyDefaults
  have hsn3 : (defaultIntervalStep (defaultBucketsStep
      (defaultNamespaceStep c))).ServiceName = c.ServiceName := by
    rw [(defaultIntervalStep_preserves _).1, (defaultBucketsStep_preserves _).1,
      (defaultNamespaceStep_preserves _).1]
  have hsn4 : (enableHTTPStep (defaultIntervalStep (defaultBucketsStep
      (defaultNamespaceStep c)))).ServiceName = c.ServiceName := by
    rw [(enableHTTPStep_preserves _).1, hsn3]
  have hsn5 : (enableMetricsEndpointStep (enableHTTPStep (defaultIntervalStep
      (defaultBucketsStep (defaultNamespaceStep c))))).ServiceName = c.ServiceName := by
    rw [(enableMetricsEndpointStep_preserves _).1, hsn4]
  have h4http : (enableHTTPStep (defaultIntervalStep (defaultBucketsStep
      (defaultNamespaceStep c)))).EnableHTTPMetrics = true :=
    enableHTTPStep_sets _ (by rw [hsn3]; exact hs)
  have h5http := (enableMetricsEndpointStep_preserves _).2.1.trans h4http
  have h6http := (enableHealthEndpointStep_preserves _).2.1.trans h5http
  have h5me : (enableMetricsEndpointStep (enableHTTPStep (defaultIntervalStep
      (defaultBucketsStep (defaultNamespaceStep c))))).EnableMetricsEndpoint = true :=
    enableMetricsEndpointStep_sets _ (by rw [hsn4]; exact hs)
  have h6me := (enableHealthEndpointStep_preserves _).2.2.trans h5me
  have h6he := enableHealthEndpointStep_sets _ (by rw [hsn5]; exact hs)
  exact ⟨h6http, h6me, h6he⟩

/-- Claim C10 (confirmed): for a non-nil config with a non-empty
ServiceName, NewMetrics leaves all three Enable flags true (an explicit
false is indistinguishable from unset and gets overridden) and HTTP metrics
are always initialized (httpMetrics is non-nil). -/
theorem new_metrics_forces_http_flags (c : Config) (hs : c.ServiceName ≠ "") :
    (NewMetrics (some c)).config.EnableHTTPMetrics = true
    ∧ (NewMetrics (some c)).config.EnableMetricsEndpoint = true
    ∧ (NewMetrics (some c)).config.EnableHealthEndpoint = true
    ∧ (NewMetrics (some c)).httpMetrics.isSome = true := by
  obtain ⟨h1, h2, h3⟩ := applyDefaults_flags c hs
  refine ⟨?_, ?_, ?_, ?_⟩ <;> simp [NewMetrics, h1, h2, h3]

/-- Witness for new_metrics_forces_http_flags: a config that explicitly sets
all three flags to false still comes out with all three true. -/
theorem new_metrics_forces_http_flags_witness :
    allFalseCfg.ServiceName ≠ ""
    ∧ ((NewMetrics (some allFalseCfg)).config.EnableHTTPMetrics = true
      ∧ (NewMetrics (some allFalseCfg)).config.EnableMetricsEndpoint = true
      ∧ (NewMetrics (some allFalseCfg)).config.EnableHealthEndpoint = true
      ∧ (NewMetrics (some allFalseCfg)).httpMetrics.isSome = true) :=
  ⟨by decide, new_metrics_forces_http_flags allFalseCfg (by decide)⟩

/-- Claim C9 (amended): GinMiddleware records nothing for a request whose
URL path is the pull endpoint path /metrics — the whole metrics state is
unchanged. -/
theorem gin_middleware_skips_metrics_path (m : Metrics) (req : GinRequest)
    (h : req.urlPath = "/metrics") :
    m.GinMiddlewareHandle req = m := by
  unfold Metrics.GinMiddlewareHandle
  by_cases he : m.config.EnableHTTPMetrics
  · rw [if_neg (by simp [he]), if_pos h]
  · rw [if_pos (by simp [he])]

/-- Witness for gin_middleware_skips_metrics_path. -/
theorem gin_middleware_skips_metrics_path_witness :
    reqMetricsPath.urlPath = "/metrics"
    ∧ httpExample.GinMiddlewareHandle reqMetricsPath = httpExample :=
  ⟨rfl, gin_middleware_skips_metrics_path httpExample reqMetricsPath rfl⟩

/-- Claim C9 counterexample: the plain Middleware has no /metrics exclusion;
handling a /metrics request changes the HTTP request counter state, so the
HTTP metric state is not unchanged by such a request. -/
theorem middleware_metrics_path_unmeasured_refuted :
    reqMetricsPath.urlPath = "/metrics"
    ∧ (Metrics.MiddlewareHandle httpExample reqMetricsPath).httpMetrics.map
        (fun hm => hm.RequestsTotal.series)
      ≠ httpExample.httpMetrics.map (fun hm => hm.RequestsTotal.series) := by
  refine ⟨rfl, ?_⟩
  decide

theorem incrementCounterBy_mismatch_panics (m : Metrics) (name : String)
    (labels : MetricLabels) (v : ℚ) (c : CounterVec)
    (hc : alookup m.counters name = some c)
    (hres : resolveLabelValues c.labelKeys labels = none) :
    crashedUnchanged (m.IncrementCounterBy name v labels) m := by
  have hu : upsert m.counters name c = m.counters := upsert_cancel _ _ _ hc
  constructor
  · simp [Metrics.IncrementCounterBy, Metrics.getOrCreateCounter, hc,
      CounterVec.withAdd, hres, GoOutcome.crashed]
  · simp [Metrics.IncrementCounterBy, Metrics.getOrCreateCounter, hc,
      CounterVec.withAdd, hres, GoOutcome.state, hu]

theorem setGauge_mismatch_panics (m : Metrics) (name : String)
    (labels : MetricLabels) (v : ℚ) (g : GaugeVec)
    (hg : alookup m.gauges name = some g)
    (hres : resolveLabelValues g.labelKeys labels = none) :
    crashedUnchanged (m.SetGauge name v labels) m := by
  have hu : upsert m.gauges name g = m.gauges := upsert_cancel _ _ _ hg
  constructor
  · simp [Metrics.SetGauge, Metrics.getOrCreateGauge, hg,
      GaugeVec.withSet, hres, GoOutcome.crashed]
  · simp [Metrics.SetGauge, Metrics.getOrCreateGauge, hg,
      GaugeVec.withSet, hres, GoOutcome.state, hu]

theorem incrementGauge_mismatch_panics (m : Metrics) (name : String)
    (labels : MetricLabels) (g : GaugeVec)
    (hg : alookup m.gauges name = some g)
    (hres : resolveLabelValues g.labelKeys labels = none) :
    crashedUnchanged (m.IncrementGauge name labels) m := by
  have hu : upsert m.gauges name g = m.gauges := upsert_cancel _ _ _ hg
  constructor
  · simp [Metrics.IncrementGauge, Metrics.getOrCreateGauge, hg,
      GaugeVec.withInc, hres, GoOutcome.crashed]
  · simp [Metrics.IncrementGauge, Metrics.getOrCreateGauge, hg,
      GaugeVec.withInc, hres, GoOutcome.state, hu]

theorem decrementGauge_mismatch_panics (m : Metrics) (name : String)
    (labels : MetricLabels) (g : GaugeVec)
    (hg : alookup m.gauges name = some g)
    (hres : resolveLabelValues g.labelKeys labels = none) :
    crashedUnchanged (m.DecrementGauge name labels) m := by
  have hu : upsert m.gauges name g = m.gauges := upsert_cancel _ _ _ hg
  constructor
  · simp [Metrics.DecrementGauge, Metrics.getOrCreateGauge, hg,
      GaugeVec.withDec, hres, GoOutcome.crashed]
  · simp [Metrics.DecrementGauge, Metrics.getOrCreateGauge, hg,
      GaugeVec.withDec, hres, GoOutcome.state, hu]

theorem recordHistogram_mismatch_panics (m : Metrics) (name : String)
    (labels : MetricLabels) (v : ℚ) (hv : HistogramVec)
    (hh : alookup m.histograms name = some hv)
    (hres : resolveLabelValues hv.labelKeys labels = none) :
    crashedUnchanged (m.RecordHistogram name v labels) m := by
  have hu : upsert m.histograms name hv = m.histograms := upsert_cancel _ _ _ hh
  constructor
  · simp [Metrics.RecordHistogram, Metrics.getOrCreateHistogram, hh,
      HistogramVec.withObserve, hres, GoOutcome.crashed]
  · simp [Metrics.RecordHistogram, Metrics.getOrCreateHistogram, hh,
      HistogramVec.withObserve, hres, GoOutcome.state, hu]

/-- Claim C1 (amended): once a metric name's schema is bound, every
instrumentation verb called with a label map whose key set differs from the
bound schema fails by a panic in the caller (the verbs return nothing, so no
error result is possible) and leaves the whole collector state — in
particular every existing series — unchanged. -/
theorem instrumentation_schema_mismatch_panics_unchanged
    (m : Metrics) (nc ng nh : String) (labels : MetricLabels) (v : ℚ)
    (kc kg kh : List String)
    (hc : counterKeys m nc = some kc)
    (hg : gaugeKeys m ng = some kg)
    (hh : histogramKeys m nh = some kh)
    (hlN : (getLabelKeys labels).Nodup)
    (hkcN : kc.Nodup) (hkgN : kg.Nodup) (hkhN : kh.Nodup)
    (hcne : ¬ sameKeySet kc (getLabelKeys labels))
    (hgne : ¬ sameKeySet kg (getLabelKeys labels))
    (hhne : ¬ sameKeySet kh (getLabelKeys labels)) :
    crashedUnchanged (m.IncrementCounterBy nc v labels) m
    ∧ crashedUnchanged (m.IncrementCounter nc labels) m
    ∧ crashedUnchanged (m.SetGauge ng v labels) m
    ∧ crashedUnchanged (m.IncrementGauge ng labels) m
    ∧ crashedUnchanged (m.DecrementGauge ng labels) m
    ∧ crashedUnchanged (m.RecordHistogram nh v labels) m := by
  obtain ⟨c, hc', hck⟩ : ∃ c, alookup m.counters nc = some c ∧ c.labelKeys = kc := by
    unfold counterKeys at hc
    cases hcc : alookup m.counters nc with
    | none => rw [hcc] at hc; simp at hc
    | some c =>
      rw [hcc] at hc
      simp at hc
      exact ⟨c, rfl, hc⟩
  obtain ⟨g, hg', hgk⟩ : ∃ g, alookup m.gauges ng = some g ∧ g.labelKeys = kg := by
    unfold gaugeKeys at hg
    cases hgg : alookup m.gauges ng with
    | none => rw [hgg] at hg; simp at hg
    | some g =>
      rw [hgg] at hg
      simp at hg
      exact ⟨g, rfl, hg⟩
  obtain ⟨hv, hh', hhk⟩ : ∃ hv, alookup m.histograms nh = some hv ∧ hv.labelKeys = kh := by
    unfold histogramKeys at hh
    cases hhh : alookup m.histograms nh with
    | none => rw [hhh] at hh; simp at hh
    | some hv =>
      rw [hhh] at hh
      simp at hh
      exact ⟨hv, rfl, hh⟩
  have hresC : resolveLabelValues c.labelKeys labels = none := by
    rw [hck]
    exact resolveLabelValues_eq_none_of_not_sameKeySet _ _ hkcN hlN hcne
  have hresG : resolveLabelValues g.labelKeys labels = none := by
    rw [hgk]
    exact resolveLabelValues_eq_none_of_not_sameKeySet _ _ hkgN hlN hgne
  have hresH : resolveLabelValues hv.labelKeys labels = none := by
    rw [hhk]
    exact resolveLabelValues_eq_none_of_not_sameKeySet _ _ hkhN hlN hhne
  refine ⟨incrementCounterBy_mismatch_panics m nc labels v c hc' hresC, ?_,
    setGauge_mismatch_panics m ng labels v g hg' hresG,
    incrementGauge_mismatch_panics m ng labels g hg' hresG,
    decrementGauge_mismatch_panics m ng labels g hg' hresG,
    recordHistogram_mismatch_panics m nh labels v hv hh' hresH⟩
  show crashedUnchanged (m.IncrementCounterBy nc 1 labels) m
  exact incrementCounterBy_mismatch_panics m nc labels 1 c hc' hresC

/-- Witness for instrumentation_schema_mismatch_panics_unchanged: the bound
schemas a, b, d all differ from the supplied key set z. -/
theorem instrumentation_schema_mismatch_panics_unchanged_witness :
    (counterKeys boundExample "c_total" = some ["a"]
      ∧ gaugeKeys boundExample "g_val" = some ["b"]
      ∧ histogramKeys boundExample "h_val" = some ["d"]
      ∧ (getLabelKeys [("z", "9")]).Nodup
      ∧ (["a"] : List String).Nodup
      ∧ (["b"] : List String).Nodup
      ∧ (["d"] : List String).Nodup
      ∧ ¬ sameKeySet ["a"] (getLabelKeys [("z", "9")])
      ∧ ¬ sameKeySet ["b"] (getLabelKeys [("z", "9")])
      ∧ ¬ sameKeySet ["d"] (getLabelKeys [("z", "9")]))
    ∧ (crashedUnchanged (boundExample.IncrementCounterBy "c_total" 7 [("z", "9")]) boundExample
      ∧ crashedUnchanged (boundExample.IncrementCounter "c_total" [("z", "9")]) boundExample
      ∧ crashedUnchanged (boundExample.SetGauge "g_val" 7 [("z", "9")]) boundExample
      ∧ crashedUnchanged (boundExample.IncrementGauge "g_val" [("z", "9")]) boundExample
      ∧ crashedUnchanged (boundExample.DecrementGauge "g_val" [("z", "9")]) boundExample
      ∧ crashedUnchanged (boundExample.RecordHistogram "h_val" 7 [("z", "9")]) boundExample) :=
  ⟨⟨by decide, by decide, by decide, by decide, by decide, by decide, by decide,
    by decide, by decide, by decide⟩,
   instrumentation_schema_mismatch_panics_unchanged boundExample "c_total" "g_val"
     "h_val" [("z", "9")] 7 ["a"] ["b"] ["d"] (by decide) (by decide) (by decide)
     (by decide) (by decide) (by decide) (by decide) (by decide) (by decide)
     (by decide)⟩

/-- Claim C1 counterexample: the claim promises a SchemaMismatch signalled
via an error result that does not crash the caller, but calling
IncrementCounter on a name bound to schema a with key set zz panics. -/
theorem schema_mismatch_error_result_refuted :
    (boundExample.IncrementCounter "c_total" [("zz", "1")]).crashed = true := by
  decide

theorem alookup_append_single_ne {κ α : Type} [DecidableEq κ]
    (l : List (κ × α)) (k k' : κ) (x : α) (h : k' ≠ k) :
    alookup (l ++ [(k, x)]) k' = alookup l k' := by
  cases hh : alookup l k' with
  | some y => rw [alookup_append_left _ _ _ _ hh]
  | none =>
    rw [alookup_append_none _ _ _ hh]
    have hkk : ¬ k = k' := fun a => h a.symm
    simp [alookup, hkk]

theorem counterSeriesRaw_after_upsert (m m' : Metrics) (name : String)
    (c c' : CounterVec) (hm : alookup m.counters name = some c)
    (hm' : m'.counters = upsert m.counters name c')
    (hkeep : ∀ vals0, (alookup c'.series vals0).getD 0 = (alookup c.series vals0).getD 0) :
    ∀ n vals0, counterSeriesRaw m' n vals0 = counterSeriesRaw m n vals0 := by
  intro n vals0
  unfold counterSeriesRaw
  rw [hm']
  by_cases hn : n = name
  · subst hn
    rw [alookup_upsert_self, hm]
    exact hkeep vals0
  · rw [alookup_upsert_ne _ _ _ _ hn]

theorem counterSeriesRaw_after_fresh (m m' : Metrics) (name : String)
    (cF c' : CounterVec) (hm : alookup m.counters name = none)
    (hm' : m'.counters = upsert (m.counters ++ [(name, cF)]) name c')
    (hzero : ∀ vals0, (alookup c'.series vals0).getD 0 = 0) :
    ∀ n vals0, counterSeriesRaw m' n vals0 = counterSeriesRaw m n vals0 := by
  intro n vals0
  unfold counterSeriesRaw
  rw [hm']
  by_cases hn : n = name
  · subst hn
    rw [alookup_upsert_self, hm]
    exact hzero vals0
  · rw [alookup_upsert_ne _ _ _ _ hn, alookup_append_single_ne _ _ _ _ hn]

theorem getD_upsert_keep (s : List (List String × ℚ)) (vals : List String) :
    ∀ vals1, (alookup (upsert s vals ((alookup s vals).getD 0)) vals1).getD 0
      = (alookup s vals1).getD 0 := by
  intro vals1
  by_cases hvv : vals1 = vals
  · subst hvv
    rw [alookup_upsert_self]
    rfl
  · rw [alookup_upsert_ne _ _ _ _ hvv]

/-- Claim C2 (amended): a negative delta makes IncrementCounterBy panic in
the caller (the function returns nothing, so no error result is possible)
and every counter series value is unchanged by the failed call. -/
theorem negative_counter_delta_panics_value_unchanged
    (m : Metrics) (name : String) (labels : MetricLabels) (v : ℚ) (hv : v < 0) :
    (m.IncrementCounterBy name v labels).crashed = true
    ∧ ∀ n vals, counterSeriesRaw ((m.IncrementCounterBy name v labels).state) n vals
        = counterSeriesRaw m n vals := by
  cases hm : alookup m.counters name with
  | some c =>
    cases hr : resolveLabelValues c.labelKeys labels with
    | none =>
      have hcu := incrementCounterBy_mismatch_panics m name labels v c hm hr
      exact ⟨hcu.1, fun n vals => by rw [hcu.2]⟩
    | some vals =>
      have hstep : m.IncrementCounterBy name v labels
          = .panicked "counter cannot decrease in value"
              { m with counters :=
                         upsert m.counters name
                           ({ c with series :=
                                       upsert c.series vals
                                         ((alookup c.series vals).getD 0) }) } := by
        simp [Metrics.IncrementCounterBy, Metrics.getOrCreateCounter, hm,
          CounterVec.withAdd, hr, hv]
      rw [hstep]
      refine ⟨rfl, ?_⟩
      exact counterSeriesRaw_after_upsert m _ name c _ hm rfl (getD_upsert_keep c.series vals)
  | none =>
    obtain ⟨vals, hr⟩ := Option.isSome_iff_exists.mp (resolveLabelValues_self labels)
    have hstep : m.IncrementCounterBy name v labels
        = .panicked "counter cannot decrease in value"
            { m with counters :=
                       upsert (m.counters ++
                           [(name, { fqName := buildFQName m.config.Namespace m.config.Subsystem name,
                                     labelKeys := getLabelKeys labels,
                                     series := [] })]) name
                         ({ fqName := buildFQName m.config.Namespace m.config.Subsystem name,
                            labelKeys := getLabelKeys labels,
                            series := upsert [] vals 0 }) } := by
      simp [Metrics.IncrementCounterBy, Metrics.getOrCreateCounter, hm,
        CounterVec.withAdd, hr, hv, alookup]
    rw [hstep]
    refine ⟨rfl, ?_⟩
    refine counterSeriesRaw_after_fresh m _ name _ _ hm rfl ?_
    intro vals0
    by_cases hvv : vals0 = vals
    · subst hvv
      show (alookup (upsert [] vals0 0) vals0).getD 0 = 0
      rw [alookup_upsert_self]
      rfl
    · show (alookup (upsert [] vals 0) vals0).getD 0 = 0
      rw [alookup_upsert_ne _ _ _ _ hvv]
      simp [alookup]

/-- A fresh collector used to exercise a negative counter delta. -/
theorem negative_counter_delta_panics_value_unchanged_witness :
    ((-1 : ℚ) < 0)
    ∧ (((NewMetrics (some { ServiceName := "svc" })).IncrementCounterBy
          "c_total" (-1) []).crashed = true
      ∧ ∀ n vals,
          counterSeriesRaw (((NewMetrics (some { ServiceName := "svc" })).IncrementCounterBy
            "c_total" (-1) []).state) n vals
          = counterSeriesRaw (NewMetrics (some { ServiceName := "svc" })) n vals) :=
  ⟨by decide,
   negative_counter_delta_panics_value_unchanged
     (NewMetrics (some { ServiceName := "svc" })) "c_total" [] (-1) (by decide)⟩

/-- Claim C2 counterexample: the claim promises an InvalidArgument returned
as an error result, not a crash, but a negative delta makes the call panic. -/
theorem negative_counter_delta_error_result_refuted :
    ((NewMetrics (some { ServiceName := "svc" })).IncrementCounterBy
      "c_total" (-1) []).crashed = true := by
  decide

theorem counterValue_some (m : Metrics) (n : String) (labels : MetricLabels)
    (c : CounterVec) (h : alookup m.counters n = some c) :
    counterValue m n labels
      = (match resolveLabelValues c.labelKeys labels with
         | none => (0 : ℚ)
         | some vals => (alookup c.series vals).getD 0) := by
  unfold counterValue
  rw [h]

theorem counterValue_resolved (m : Metrics) (n : String) (labels : MetricLabels)
    (c : CounterVec) (vals : List String) (h : alookup m.counters n = some c)
    (hr : resolveLabelValues c.labelKeys labels = some vals) :
    counterValue m n labels = (alookup c.series vals).getD 0 := by
  rw [counterValue_some m n labels c h, hr]

theorem incrementCounterBy_matched_step (m : Metrics) (name : String)
    (labels : MetricLabels) (v : ℚ) (c : CounterVec) (vals : List String)
    (hc : alookup m.counters name = some c)
    (hr : resolveLabelValues c.labelKeys labels = some vals)
    (hv : 0 ≤ v) :
    ∃ c', m.IncrementCounterBy name v labels
        = .ok { m with counters := upsert m.counters name c' }
      ∧ c'.labelKeys = c.labelKeys
      ∧ alookup c'.series vals = some ((alookup c.series vals).getD 0 + v) := by
  refine ⟨{ c with series :=
                     upsert (upsert c.series vals ((alookup c.series vals).getD 0)) vals
                       ((alookup c.series vals).getD 0 + v) }, ?_, rfl, ?_⟩
  · simp [Metrics.IncrementCounterBy, Metrics.getOrCreateCounter, hc,
      CounterVec.withAdd, hr, not_lt.mpr hv]
  · show alookup (upsert (upsert c.series vals ((alookup c.series vals).getD 0)) vals
      ((alookup c.series vals).getD 0 + v)) vals = _
    rw [alookup_upsert_self]

/-- Claim C3 (confirmed): for every kind, resolving an already bound name
with the same key set returns exactly the stored vector and leaves the
registry untouched (no replacement, no reset) — stated for a bound counter,
gauge and histogram name — and two successive increments on the same counter
name and labels leave the counter series at the initial value plus both
deltas rather than only the last. -/
theorem counter_resolve_identity_and_accumulation
    (m : Metrics) (name ng nh : String)
    (labels labelsG labelsH : MetricLabels) (v1 v2 : ℚ)
    (c : CounterVec) (g : GaugeVec) (hvec : HistogramVec)
    (hc : alookup m.counters name = some c)
    (hg : alookup m.gauges ng = some g)
    (hh : alookup m.histograms nh = some hvec)
    (hkN : c.labelKeys.Nodup) (hlN : (getLabelKeys labels).Nodup)
    (hsame : sameKeySet c.labelKeys (getLabelKeys labels))
    (hsameG : sameKeySet g.labelKeys (getLabelKeys labelsG))
    (hsameH : sameKeySet hvec.labelKeys (getLabelKeys labelsH))
    (h1 : 0 ≤ v1) (h2 : 0 ≤ v2) :
    m.getOrCreateCounter name (getLabelKeys labels) = (c, m)
    ∧ m.getOrCreateGauge ng (getLabelKeys labelsG) = (g, m)
    ∧ m.getOrCreateHistogram nh (getLabelKeys labelsH) = (hvec, m)
    ∧ (m.IncrementCounterBy name v1 labels).crashed = false
    ∧ ((m.IncrementCounterBy name v1 labels).state.IncrementCounterBy
        name v2 labels).crashed = false
    ∧ counterValue (((m.IncrementCounterBy name v1 labels).state.IncrementCounterBy
        name v2 labels).state) name labels
      = counterValue m name labels + v1 + v2 := by
  obtain ⟨vals, hr⟩ := Option.isSome_iff_exists.mp
    (resolveLabelValues_isSome_of_sameKeySet c.labelKeys labels hkN hlN hsame)
  obtain ⟨c1, hs1, hk1, hv1⟩ := incrementCounterBy_matched_step m name labels v1 c vals hc hr h1
  have hid : m.getOrCreateCounter name (getLabelKeys labels) = (c, m) := by
    simp [Metrics.getOrCreateCounter, hc]
  have hidG : m.getOrCreateGauge ng (getLabelKeys labelsG) = (g, m) := by
    simp [Metrics.getOrCreateGauge, hg]
  have hidH : m.getOrCreateHistogram nh (getLabelKeys labelsH) = (hvec, m) := by
    simp [Metrics.getOrCreateHistogram, hh]
  have hstate1 : (m.IncrementCounterBy name v1 labels).state
      = { m with counters := upsert m.counters name c1 } := by
    rw [hs1]
    rfl
  have hm1 : alookup ({ m with counters := upsert m.counters name c1 } : Metrics).counters name
      = some c1 := alookup_upsert_self _ _ _
  have hr1 : resolveLabelValues c1.labelKeys labels = some vals := by
    rw [hk1]
    exact hr
  obtain ⟨c2, hs2, hk2, hv2⟩ := incrementCounterBy_matched_step
    { m with counters := upsert m.counters name c1 } name labels v2 c1 vals hm1 hr1 h2
  have hr2 : resolveLabelValues c2.labelKeys labels = some vals := by
    rw [hk2]
    exact hr1
  refine ⟨hid, hidG, hidH, by rw [hs1]; rfl, ?_, ?_⟩
  · rw [hstate1, hs2]
    rfl
  · rw [hstate1, hs2]
    show counterValue { { m with counters := upsert m.counters name c1 } with
        counters := upsert ({ m with counters := upsert m.counters name c1 } : Metrics).counters
          name c2 } name labels = counterValue m name labels + v1 + v2
    rw [counterValue_resolved _ name labels c2 vals (alookup_upsert_self _ _ _) hr2]
    rw [counterValue_resolved m name labels c vals hc hr]
    rw [hv2]
    show (alookup c1.series vals).getD 0 + v2 = _
    rw [hv1]
    show (alookup c.series vals).getD 0 + v1 + v2 = _
    rfl

/-- Witness for counter_resolve_identity_and_accumulation: on boundExample,
resolving c_total, g_val and h_val again returns the stored vectors, and the
two counter increments of 2 and 3 move the series from 1 to 6. -/
theorem counter_resolve_identity_and_accumulation_witness :
    (alookup boundExample.counters "c_total" = some cTotalVec
      ∧ alookup boundExample.gauges "g_val" = some gValVec
      ∧ alookup boundExample.histograms "h_val" = some hValVec
      ∧ cTotalVec.labelKeys.Nodup
      ∧ (getLabelKeys [("a", "1")]).Nodup
      ∧ sameKeySet cTotalVec.labelKeys (getLabelKeys [("a", "1")])
      ∧ sameKeySet gValVec.labelKeys (getLabelKeys [("b", "1")])
      ∧ sameKeySet hValVec.labelKeys (getLabelKeys [("d", "1")])
      ∧ (0 : ℚ) ≤ 2 ∧ (0 : ℚ) ≤ 3)
    ∧ (boundExample.getOrCreateCounter "c_total" (getLabelKeys [("a", "1")])
        = (cTotalVec, boundExample)
      ∧ boundExample.getOrCreateGauge "g_val" (getLabelKeys [("b", "1")])
        = (gValVec, boundExample)
      ∧ boundExample.getOrCreateHistogram "h_val" (getLabelKeys [("d", "1")])
        = (hValVec, boundExample)
      ∧ (boundExample.IncrementCounterBy "c_total" 2 [("a", "1")]).crashed = false
      ∧ ((boundExample.IncrementCounterBy "c_total" 2 [("a", "1")]).state.IncrementCounterBy
          "c_total" 3 [("a", "1")]).crashed = false
      ∧ counterValue (((boundExample.IncrementCounterBy "c_total" 2
          [("a", "1")]).state.IncrementCounterBy "c_total" 3 [("a", "1")]).state)
          "c_total" [("a", "1")]
        = counterValue boundExample "c_total" [("a", "1")] + 2 + 3) :=
  ⟨⟨by decide, by decide, rfl, by decide, by decide, by decide, by decide,
    by decide, by decide, by decide⟩,
   counter_resolve_identity_and_accumulation boundExample "c_total" "g_val"
     "h_val" [("a", "1")] [("b", "1")] [("d", "1")] 2 3 cTotalVec gValVec hValVec
     (by decide) (by decide) rfl (by decide) (by decide) (by decide)
     (by decide) (by decide) (by decide) (by decide)⟩

/-- Claim C8 (confirmed): a histogram created through RecordHistogram is
bound at creation to the global default boundaries (prometheus DefBuckets),
and recording 0.1, 0.2 and 5.0 yields a series with sample count 3 and sum
53/10 (float64 values modelled as exact rationals). -/
theorem record_histogram_default_buckets_count_sum
    (m : Metrics) (name : String) (labels : MetricLabels) (v : ℚ)
    (hfresh : alookup m.histograms name = none) :
    (∃ hv, alookup ((m.RecordHistogram name v labels).state).histograms name = some hv
        ∧ hv.buckets = DefBuckets)
    ∧ histogramSeriesStats histExample "h" [] = (3, 53/10) := by
  constructor
  · obtain ⟨vals, hr⟩ := Option.isSome_iff_exists.mp (resolveLabelValues_self labels)
    have hstep : m.RecordHistogram name v labels
        = .ok { m with histograms :=
                         upsert (m.histograms ++
                             [(name, { fqName := buildFQName m.config.Namespace m.config.Subsystem name,
                                       labelKeys := getLabelKeys labels,
                                       buckets := DefBuckets,
                                       series := [] })]) name
                           ({ fqName := buildFQName m.config.Namespace m.config.Subsystem name,
                              labelKeys := getLabelKeys labels,
                              buckets := DefBuckets,
                              series := upsert [] vals
                                  ((freshHistSeries DefBuckets).observe DefBuckets v) }) } := by
      simp [Metrics.RecordHistogram, Metrics.getOrCreateHistogram, hfresh,
        HistogramVec.withObserve, hr, alookup]
    rw [hstep]
    exact ⟨_, alookup_upsert_self _ _ _, rfl⟩
  · norm_num [histExample, emptyMetrics, histogramSeriesStats, DefaultConfig,
      Metrics.RecordHistogram, Metrics.getOrCreateHistogram,
      HistogramVec.withObserve, HistSeries.observe, observeBuckets,
      freshHistSeries, DefBuckets, resolveLabelValues, resolveVals, alookup,
      upsert, updateFirst, getLabelKeys, GoOutcome.state, buildFQName]

/-- Witness for record_histogram_default_buckets_count_sum: a fresh name on
a fresh collector. -/
theorem record_histogram_default_buckets_count_sum_witness :
    alookup emptyMetrics.histograms "x" = none
    ∧ ((∃ hv, alookup ((emptyMetrics.RecordHistogram "x" 1
          [("a", "b")]).state).histograms "x" = some hv ∧ hv.buckets = DefBuckets)
      ∧ histogramSeriesStats histExample "h" [] = (3, 53/10)) :=
  ⟨by decide,
   record_histogram_default_buckets_count_sum emptyMetrics "x" [("a", "b")] 1
     (by decide)⟩
